import Mathlib

/-!
Verification of the data/execution core of the locust-argocd load-testing
harness (src/final_ui.py) against its specification.  The Python classes are
shallowly embedded as pure Lean functions over explicit state records:
dictionaries become association lists (first binding wins, assignment replaces
in place), exceptions become a dedicated outcome constructor, wall-clock reads
and random.choice become explicit parameters.
-/

namespace FinalUi

/-- Association-list lookup modelling a Python dict read (first binding wins). -/
def getk [DecidableEq α] (k : α) : List (α × β) → Option β
  | [] => none
  | (k', v) :: t => if k' = k then some v else getk k t

/-- Association-list update modelling a Python dict assignment: replaces the
binding in place when the key is present, appends otherwise. -/
def setk [DecidableEq α] (k : α) (v : β) : List (α × β) → List (α × β)
  | [] => [(k, v)]
  | (k', v') :: t => if k' = k then (k, v) :: t else (k', v') :: setk k v t

/-- The literal placeholder form returned for unresolvable names (the Python
f-string produces a dollar sign followed by the name in braces). -/
def placeholder (name : String) : String := "$\x7b" ++ name ++ "\x7d"

/-- Outcome of one draw from VariableManager.get_value: an ordinary value, or
the StopIteration exhaustion signal carrying the original message. -/
inductive Draw where
  | ok (v : String)
  | stopIteration (msg : String)
deriving DecidableEq, Repr

/-- Configuration of one variable (src/final_ui.py lines 59-82).  The dict
keys type, values, recycle_on_eof and combination_group become fields; the
dict.get defaults (type sequential, recycle true, no group) are applied when
the configuration is built. -/
structure VarConfig where
  type : String
  values : List String
  recycle_on_eof : Bool
  combination_group : Option String
deriving DecidableEq, Repr

/-- State of one registered combination group (lines 65-71): the ordered
member list and the shared row index. -/
structure GroupState where
  members : List String
  index : Nat
deriving DecidableEq, Repr

/-- State of VariableManager (lines 50-71): registered variable configs,
per-variable cursors, and combination-group states.  The per-name locks only
serialize access and carry no data, so they are not represented. -/
structure VariableManager where
  vars : List (String × VarConfig)
  indices : List (String × Nat)
  combination_groups : List (String × GroupState)
deriving DecidableEq, Repr

/-- Non-combination dispatch of VariableManager.get_value (lines 104-131).
random.choice is modelled by the oracle index rnd taken modulo the length.
In the sequential and unique wrap branches Python assigns the cursor 0 and
then immediately increments it past the read; the two writes collapse to one
write of the final value 1.  List reads values[idx] happen with idx in bounds
in every reachable branch, so getD is exact there. -/
def VariableManager.plainValue (m : VariableManager) (name : String)
    (config : VarConfig) (rnd : Nat) : Draw × VariableManager :=
  let values := config.values
  let recycle := config.recycle_on_eof
  if config.type = "random" then
    (.ok (values.getD (rnd % values.length) ""), m)
  else if config.type = "sequential" then
    let idx := (getk name m.indices).getD 0
    if idx ≥ values.length then
      if recycle then
        (.ok (values.headD ""), { m with indices := setk name 1 m.indices })
      else
        (.stopIteration ("All values for " ++ name ++ " have been used"), m)
    else
      (.ok (values.getD idx ""), { m with indices := setk name (idx + 1) m.indices })
  else if config.type = "unique" then
    let idx := (getk name m.indices).getD 0
    if idx ≥ values.length then
      if !recycle then
        (.stopIteration ("All values for " ++ name ++ " have been used"), m)
      else
        (.ok (values.headD ""), { m with indices := setk name 1 m.indices })
    else
      (.ok (values.getD idx ""), { m with indices := setk name (idx + 1) m.indices })
  else
    (.ok (values.headD ""), m)

/-- VariableManager.get_value (lines 73-131).  An unregistered name and an
empty value sequence both return the literal placeholder.  A variable whose
config carries a truthy combination_group registered in combination_groups is
served from the shared group cursor: on wrap (index at or past this variable's
own length) with recycle the cursor is reset to 0 before the read; the group
cursor is incremented only when the drawn variable is the declared last member
(Python reads the member list at position -1, which assumes a non-empty member
list; getLast? models that read).  In the wrap-and-last case the reset and the
increment collapse to one write of the final value 1. -/
def VariableManager.get_value (m : VariableManager) (name : String) (rnd : Nat) :
    Draw × VariableManager :=
  match getk name m.vars with
  | none => (.ok (placeholder name), m)
  | some config =>
    let values := config.values
    let recycle := config.recycle_on_eof
    if values.isEmpty then (.ok (placeholder name), m)
    else
      match config.combination_group with
      | some g =>
        if g ≠ "" then
          match getk g m.combination_groups with
          | some group =>
            let isLast := group.members.getLast? == some name
            if group.index ≥ values.length then
              if recycle then
                (.ok (values.headD ""),
                  { m with combination_groups :=
                      (setk g ({ group with index := if isLast then 1 else 0 })
                        m.combination_groups) })
              else
                (.stopIteration
                  ("All values for combination group " ++ g ++ " have been used"), m)
            else
              if isLast then
                (.ok (values.getD group.index ""),
                  { m with combination_groups :=
                      (setk g ({ group with index := group.index + 1 })
                        m.combination_groups) })
              else
                (.ok (values.getD group.index ""), m)
          | none => m.plainValue name config rnd
        else m.plainValue name config rnd
      | none => m.plainValue name config rnd

/-- VariableManager.register_variable (lines 59-63): stores the config and a
zero cursor (the lock carries no data). -/
def VariableManager.register_variable (m : VariableManager) (name : String)
    (config : VarConfig) : VariableManager :=
  { m with vars := setk name config m.vars,
           indices := setk name 0 m.indices }

/-- VariableManager.register_combination_group (lines 65-71). -/
def VariableManager.register_combination_group (m : VariableManager)
    (g : String) (names : List String) : VariableManager :=
  { m with combination_groups :=
      (setk g ({ members := names, index := 0 }) m.combination_groups) }

/-- A VariableManager with nothing registered. -/
def emptyManager : VariableManager :=
  { vars := [], indices := [], combination_groups := [] }

/-- Successive draws of one variable: the list of the first n outcomes of
get_value, threading the manager state (the oracle index only matters for
random variables and is fixed at 0). -/
def draws (m : VariableManager) (name : String) : Nat → List Draw
  | 0 => []
  | n + 1 =>
    let r := m.get_value name 0
    r.1 :: draws r.2 name n

/-- State of CorrelationEngine (lines 134-140): the global store and the
per-user session stores (user identities are opaque integers, as Python uses
id(self)).  The lock carries no data. -/
structure CorrelationEngine where
  global_store : List (String × String)
  session_store : List (Nat × List (String × String))
deriving DecidableEq, Repr

/-- CorrelationEngine.get_value (lines 157-164): global scope reads the shared
map; any other scope reads the per-user map when one exists for user_id. -/
def CorrelationEngine.get_value (e : CorrelationEngine) (var_name : String)
    (scope : String) (user_id : Option Nat) : Option String :=
  if scope = "global" then getk var_name e.global_store
  else
    match user_id with
    | some u =>
      match getk u e.session_store with
      | some store => getk var_name store
      | none => none
    | none => none

/-- Python truthiness of an optional string: None and the empty string are
falsy, every other string is truthy. -/
def truthy : Option String → Bool
  | some v => v ≠ ""
  | none => false

/-- The replacer closure inside RequestExecutor.substitute_variables (lines
349-359): the truthiness-guarded chain session correlation value, then global
correlation value, then VariableManager.get_value. -/
def replacer (e : CorrelationEngine) (m : VariableManager) (user_id : Nat)
    (var_name : String) (rnd : Nat) : Draw × VariableManager :=
  if truthy (e.get_value var_name "session" (some user_id)) then
    (.ok ((e.get_value var_name "session" (some user_id)).getD ""), m)
  else if truthy (e.get_value var_name "global" none) then
    (.ok ((e.get_value var_name "global" none).getD ""), m)
  else m.get_value var_name rnd

/-- One segment of a template string as decomposed by the regex used in
substitute_variables: literal text, or a placeholder match whose group is a
word-character name. -/
inductive Token where
  | lit (s : String)
  | var (name : String)
deriving DecidableEq, Repr

/-- RequestExecutor.substitute_variables (lines 342-361) on a template already
decomposed into literal and placeholder segments: re.sub maps each placeholder
through the replacer from left to right, threading the VariableManager state;
a StopIteration raised by a draw propagates out of the whole substitution. -/
def substitute_variables (e : CorrelationEngine) (user_id : Nat) (rnd : Nat) :
    List Token → VariableManager → Draw × VariableManager
  | [], m => (.ok "", m)
  | .lit s :: ts, m =>
    match substitute_variables e user_id rnd ts m with
    | (.ok rest, m') => (.ok (s ++ rest), m')
    | other => other
  | .var n :: ts, m =>
    match replacer e m user_id n rnd with
    | (.ok v, m') =>
      (match substitute_variables e user_id rnd ts m' with
       | (.ok rest, m'') => (.ok (v ++ rest), m'')
       | other => other)
    | other => other

/-- Header templating in execute_request (lines 392-395): substitute variables
in each header value in declaration order; keys are untouched; a StopIteration
from a draw aborts the whole request preparation. -/
def substitute_headers (e : CorrelationEngine) (uid rnd : Nat) :
    List (String × List Token) → VariableManager →
    Except String (List (String × String)) × VariableManager
  | [], m => (.ok [], m)
  | (k, v) :: t, m =>
    match substitute_variables e uid rnd v m with
    | (.ok s, m') =>
      (match substitute_headers e uid rnd t m' with
       | (.ok rest, m'') => (.ok ((k, s) :: rest), m'')
       | other => other)
    | (.stopIteration msg, m') => (.error msg, m')

/-- The correlationId overwrite in execute_request (lines 397-403): when the
exact key correlationId or the exact key CorrelationId is present in the
processed headers, every present one of those two spellings is assigned the
same freshly generated identifier (uuid.uuid4 is modelled by the parameter
fresh).  The second membership test runs against the map after the first
assignment, which cannot change which keys are present. -/
def apply_correlation_id (hs : List (String × String)) (fresh : String) :
    List (String × String) :=
  if (getk "correlationId" hs).isSome || (getk "CorrelationId" hs).isSome then
    let hs1 := if (getk "correlationId" hs).isSome
               then setk "correlationId" fresh hs else hs
    if (getk "CorrelationId" hs1).isSome
    then setk "CorrelationId" fresh hs1 else hs1
  else hs

/-- The header pipeline of execute_request (lines 392-403): template
resolution over every header value followed by the correlationId overwrite. -/
def process_headers (e : CorrelationEngine) (uid rnd : Nat)
    (headers : List (String × List Token)) (m : VariableManager)
    (fresh : String) :
    Except String (List (String × String)) × VariableManager :=
  match substitute_headers e uid rnd headers m with
  | (.ok hs, m') => (.ok (apply_correlation_id hs fresh), m')
  | other => other

/-- The checks dict of a transaction spec: the code consults exactly the keys
status (expected status code) and content (expected substring). -/
structure Checks where
  status : Option Nat
  content : Option String
deriving DecidableEq, Repr

/-- One call to the transport's manual-result hook: response.success() or
response.failure(reason). -/
inductive Mark where
  | success
  | failure (reason : String)
deriving DecidableEq, Repr

/-- Whether the first character list is a leading segment of the second. -/
def charsPre : List Char → List Char → Bool
  | [], _ => true
  | _ :: _, [] => false
  | a :: as, b :: bs => a = b && charsPre as bs

/-- Whether the first character list occurs contiguously in the second. -/
def charsSub (needle : List Char) : List Char → Bool
  | [] => needle.isEmpty
  | b :: bs => charsPre needle (b :: bs) || charsSub needle bs

/-- The Python membership test needle in hay on strings. -/
def strContains (hay needle : String) : Bool :=
  charsSub needle.toList hay.toList

/-- Check evaluation in execute_request (lines 450-495): the status block runs
first, then the content block; each declared block calls response.failure with
a descriptive reason on a mismatch and response.success otherwise; an absent
block emits nothing.  The result is the ordered list of hook calls. -/
def run_checks (checks : Checks) (status_code : Nat) (text : String) :
    List Mark :=
  (match checks.status with
   | some expected =>
     if status_code ≠ expected then
       [.failure ("Status code " ++ toString status_code ++ " != "
         ++ toString expected)]
     else [.success]
   | none => []) ++
  (match checks.content with
   | some expected =>
     if !(strContains text expected) then
       [.failure ("Content check failed: " ++ expected ++ " not found")]
     else [.success]
   | none => [])

/-- Recorded outcome of one transaction. -/
inductive Outcome where
  | success
  | failure (reason : String)
deriving DecidableEq, Repr

/-- Modelled from the spec: the transport collaborator's success/failure hook
(spec section 6; the transport itself is outside src/).  The transport keeps
one manual result per in-flight request and each hook call overwrites it — the
Locust catch_response manager that src/final_ui.py drives retains only the
most recent mark — so the recorded outcome is the last mark issued, and when
no mark is issued the transport's own success signal stands. -/
def final_outcome (transport : Outcome) (marks : List Mark) : Outcome :=
  match marks.getLast? with
  | some .success => .success
  | some (.failure r) => .failure r
  | none => transport

/-- Outcome of the check phase of execute_request: the transport's default
signal combined with the marks issued by run_checks. -/
def execute_checks (checks : Checks) (status_code : Nat) (text : String)
    (transport : Outcome) : Outcome :=
  final_outcome transport (run_checks checks status_code text)

/-- Per-timer state of ConstantThroughputTimer (lines 170-177): last dispatch
timestamp and dispatch count. -/
structure TimerEntry where
  last_request : ℚ
  count : Nat
deriving DecidableEq, Repr

/-- State of ConstantThroughputTimer: the timer-id keyed entries (locks carry
no data). -/
structure ConstantThroughputTimer where
  timers : List (String × TimerEntry)
deriving DecidableEq, Repr

/-- ConstantThroughputTimer.wait (lines 174-191) under an idealized clock:
time.time() at entry is the explicit parameter now, time.sleep is exact, and
the closing time.time() therefore reads now plus the slept duration.  The
returned rational is the time slept (0 when the code does not sleep).  A
missing timer id is initialised with last_request 0 and the last_request > 0
guard makes that first call return without sleeping. -/
def ConstantThroughputTimer.wait (tt : ConstantThroughputTimer) (rpm : ℚ)
    (timer_id : String) (now : ℚ) : ℚ × ConstantThroughputTimer :=
  let entry := (getk timer_id tt.timers).getD { last_request := 0, count := 0 }
  let target_interval := 60 / rpm
  let sleep_time :=
    if entry.last_request > 0 then max 0 (target_interval - (now - entry.last_request))
    else 0
  (sleep_time,
    { timers :=
        (setk timer_id
          ({ last_request := now + sleep_time, count := entry.count + 1 })
          tt.timers) })

/-- One row of the stage table (lines 237-240): scenario id, display name,
duration in minutes, target user count, ramp-up in seconds. -/
structure Stage where
  scenario : String
  script_name : String
  duration : ℚ
  users : ℕ
  RampUp : ℚ
deriving DecidableEq, Repr

/-- Python int() on a rational: truncation toward zero. -/
def pyint (q : ℚ) : ℤ := if 0 ≤ q then ⌊q⌋ else -⌊-q⌋

/-- CustomLoadShape.tick on the non-smoke path (lines 614-639): an empty
active set yields the idle target (0 users, spawn rate 1); otherwise every
stage whose scenario id is active contributes int(run_time / ramp * users)
users while ramping, its full user count before its duration elapses, and is
skipped entirely (continue) afterwards; the spawn rate is the maximum over the
non-skipped active stages of users / ramp (users itself when ramp is 0),
starting from 1. -/
def tick (stages : List Stage) (active : List String) (run_time : ℚ) :
    ℤ × ℚ :=
  if active.isEmpty then (0, 1)
  else
    stages.foldl
      (fun acc stage =>
        if active.contains stage.scenario then
          let duration := stage.duration * 60
          let ramp := stage.RampUp
          let users : ℕ := stage.users
          if run_time < ramp then
            (acc.1 + pyint (run_time / ramp * (users : ℚ)),
             max acc.2 (if ramp > 0 then (users : ℚ) / ramp else (users : ℚ)))
          else if run_time < duration then
            (acc.1 + (users : ℤ),
             max acc.2 (if ramp > 0 then (users : ℚ) / ramp else (users : ℚ)))
          else acc
        else acc)
      (0, 1)

/-- The stage table configured at lines 237-240. -/
def stagesConfig : List Stage :=
  [{ scenario := "Script_01", script_name := "Address CRUD - READ",
     duration := 1, users := 2, RampUp := 5 },
   { scenario := "Script_02", script_name := "Address CRUD - CREATE",
     duration := 1, users := 2, RampUp := 5 }]

/-- Response of the apply_scenarios route: the jsonify success payload
carrying the new active set, or the jsonify error payload. -/
inductive ApplyResult where
  | ok (active : Finset String)
  | error (msg : String)
deriving DecidableEq

/-- The apply_scenarios route (lines 775-790): an empty selection is rejected
with the explicit error payload and ACTIVE_SCENARIOS is untouched; otherwise
ACTIVE_SCENARIOS is cleared and replaced wholesale by the selection under the
scenario lock.  The function returns the HTTP response and the new active
set. -/
def apply_scenarios (selected : Finset String) (active : Finset String) :
    ApplyResult × Finset String :=
  if selected = ∅ then (.error "Select at least one scenario", active)
  else (.ok selected, selected)

end FinalUi

namespace FinalUi

/-- Looking up the key just written returns the written value. -/
theorem getk_setk_self [DecidableEq α] (k : α) (v : β) (l : List (α × β)) :
    getk k (setk k v l) = some v := by
  induction l with
  | nil => simp [getk, setk]
  | cons p t ih =>
    obtain ⟨k', v'⟩ := p
    by_cases h : k' = k
    · simp [getk, setk, h]
    · simp [getk, setk, h, ih]

/-- Writing one key leaves lookups of any other key unchanged. -/
theorem getk_setk_ne [DecidableEq α] {a k : α} (h : a ≠ k) (v : β)
    (l : List (α × β)) : getk a (setk k v l) = getk a l := by
  induction l with
  | nil => simp [getk, setk, Ne.symm h]
  | cons p t ih =>
    obtain ⟨k', v'⟩ := p
    by_cases hk : k' = k
    · subst hk
      simp [getk, setk, Ne.symm h]
    · simp [getk, setk, hk, ih]

/-- C9: apply_scenarios with a non-empty selection replaces the active set
wholesale — the new active set is exactly the selection, so previously active
scenarios outside the selection are cleared, never merged — while an empty
selection yields the explicit error response and leaves the active set
unchanged. -/
theorem apply_scenarios_replaces (selected active : Finset String) :
    (selected ≠ ∅ →
      apply_scenarios selected active = (.ok selected, selected) ∧
      ∀ x ∈ active, x ∉ selected → x ∉ (apply_scenarios selected active).2) ∧
    (selected = ∅ →
      apply_scenarios selected active =
        (.error "Select at least one scenario", active)) := by
  constructor
  · intro h
    refine ⟨by simp [apply_scenarios, h], ?_⟩
    intro x _ hnx
    simpa [apply_scenarios, h] using hnx
  · intro h
    simp [apply_scenarios, h]

/-- C9 witness: activating the selection S2 while S1 is active yields the
success payload and the active set exactly S2. -/
theorem apply_scenarios_replaces_witness :
    apply_scenarios ({"S2"} : Finset String) ({"S1"} : Finset String) =
      (.ok {"S2"}, {"S2"}) :=
  ((apply_scenarios_replaces {"S2"} {"S1"}).1
    (by simp)).1

/-- C10: a stored session-scope correlation value that is the empty string
(the only falsy string) is treated as absent during substitution — the
replacer falls through to the global scope and then to the VariableStore
instead of substituting the empty string. -/
theorem falsy_session_falls_through (e : CorrelationEngine)
    (m : VariableManager) (uid rnd : Nat) (name : String)
    (hsess : e.get_value name "session" (some uid) = some "") :
    (truthy (e.get_value name "global" none) = true →
      replacer e m uid name rnd =
        (.ok ((e.get_value name "global" none).getD ""), m)) ∧
    (truthy (e.get_value name "global" none) = false →
      replacer e m uid name rnd = m.get_value name rnd) := by
  have hfalse : truthy (some "") = false := by decide
  constructor <;> intro hg <;> simp [replacer, hsess, hfalse, hg]

/-- C10 witness: with session value empty and global value g for X, the
replacer substitutes g. -/
theorem falsy_session_falls_through_witness :
    replacer ⟨[("X", "g")], [(1, [("X", "")])]⟩ emptyManager 1 "X" 0 =
      (.ok "g", emptyManager) := by
  simpa using
    (falsy_session_falls_through ⟨[("X", "g")], [(1, [("X", "")])]⟩
      emptyManager 1 0 "X" (by decide)).1 (by decide)

/-- C2 counterexample: for placeholder X a session-scope correlation value
exists (the empty string) and yet substitution yields the global-scope value
g rather than the existing session value, refuting substitutes the
session-scope correlation value for that user if one exists. -/
theorem precedence_empty_session_counterexample :
    CorrelationEngine.get_value ⟨[("X", "g")], [(2, [("X", "")])]⟩ "X"
        "session" (some 2) = some "" ∧
    substitute_variables ⟨[("X", "g")], [(2, [("X", "")])]⟩ 2 0 [.var "X"]
        emptyManager = (.ok "g", emptyManager) ∧
    ("g" : String) ≠ "" := by
  decide

/-- C2 amended: template resolution for each placeholder substitutes the
session-scope correlation value when it is non-empty, else the global-scope
correlation value when it is non-empty, else the VariableStore draw; when
neither correlation scope holds a non-empty value, an unregistered name or a
name registered with an empty value sequence yields the literal placeholder
form without error. -/
theorem resolution_precedence_amended (e : CorrelationEngine)
    (m : VariableManager) (uid rnd : Nat) (name : String) :
    (truthy (e.get_value name "session" (some uid)) = true →
      replacer e m uid name rnd =
        (.ok ((e.get_value name "session" (some uid)).getD ""), m)) ∧
    (truthy (e.get_value name "session" (some uid)) = false →
      truthy (e.get_value name "global" none) = true →
      replacer e m uid name rnd =
        (.ok ((e.get_value name "global" none).getD ""), m)) ∧
    (truthy (e.get_value name "session" (some uid)) = false →
      truthy (e.get_value name "global" none) = false →
      replacer e m uid name rnd = m.get_value name rnd) ∧
    (truthy (e.get_value name "session" (some uid)) = false →
      truthy (e.get_value name "global" none) = false →
      getk name m.vars = none →
      replacer e m uid name rnd = (.ok (placeholder name), m)) ∧
    (∀ cfg, truthy (e.get_value name "session" (some uid)) = false →
      truthy (e.get_value name "global" none) = false →
      getk name m.vars = some cfg → cfg.values = [] →
      replacer e m uid name rnd = (.ok (placeholder name), m)) := by
  refine ⟨?_, ?_, ?_, ?_, ?_⟩
  · intro hs
    simp [replacer, hs]
  · intro hs hg
    simp [replacer, hs, hg]
  · intro hs hg
    simp [replacer, hs, hg]
  · intro hs hg hm
    simp [replacer, hs, hg, VariableManager.get_value, hm]
  · intro cfg hs hg hm hempty
    simp [replacer, hs, hg, VariableManager.get_value, hm, hempty]

/-- C2 amended witness: a non-empty session value is substituted as is. -/
theorem resolution_precedence_amended_witness :
    replacer ⟨[], [(3, [("Y", "sess")])]⟩ emptyManager 3 "Y" 0 =
      (.ok "sess", emptyManager) := by
  simpa using
    (resolution_precedence_amended ⟨[], [(3, [("Y", "sess")])]⟩
      emptyManager 3 0 "Y").1 (by decide)

/-- C4 counterexample: a header named CORRELATIONID — correlationId in a
different letter case — passes through the header pipeline with its original
value abc and is not overwritten with the fresh identifier, refuting the
any-letter-case claim. -/
theorem correlation_id_case_counterexample :
    process_headers ⟨[], []⟩ 4 0 [("CORRELATIONID", [.lit "abc"])]
        emptyManager "fresh-uuid" =
      (.ok [("CORRELATIONID", "abc")], emptyManager) ∧
    ("abc" : String) ≠ "fresh-uuid" :=
  ⟨rfl, by decide⟩

/-- C4 amended: after template resolution the executor overwrites exactly the
two spellings correlationId and CorrelationId — each of those keys, when
present, is assigned the same freshly generated identifier regardless of its
prior value — and headers under any other key, including other casings of
correlationId, keep their resolved values. -/
theorem correlation_id_overwrite_amended (hs : List (String × String))
    (fresh : String) :
    ((getk "correlationId" hs).isSome = true →
      getk "correlationId" (apply_correlation_id hs fresh) = some fresh) ∧
    ((getk "CorrelationId" hs).isSome = true →
      getk "CorrelationId" (apply_correlation_id hs fresh) = some fresh) ∧
    (∀ k, k ≠ "correlationId" → k ≠ "CorrelationId" →
      getk k (apply_correlation_id hs fresh) = getk k hs) := by
  have hne1 : ("CorrelationId" : String) ≠ "correlationId" := by decide
  have hne2 : ("correlationId" : String) ≠ "CorrelationId" := by decide
  refine ⟨?_, ?_, ?_⟩
  · intro h1
    by_cases h2 : (getk "CorrelationId" hs).isSome
    · simp [apply_correlation_id, h1, h2, getk_setk_self,
        getk_setk_ne hne1, getk_setk_ne hne2]
    · simp [apply_correlation_id, h1, h2, getk_setk_self, getk_setk_ne hne1]
  · intro h2
    by_cases h1 : (getk "correlationId" hs).isSome
    · simp [apply_correlation_id, h1, h2, getk_setk_self, getk_setk_ne hne1]
    · simp [apply_correlation_id, h1, h2, getk_setk_self]
  · intro k hk1 hk2
    by_cases h1 : (getk "correlationId" hs).isSome
    · by_cases h2 : (getk "CorrelationId" hs).isSome
      · simp [apply_correlation_id, h1, h2, getk_setk_ne hne1,
          getk_setk_ne hk1, getk_setk_ne hk2]
      · simp [apply_correlation_id, h1, h2, getk_setk_ne hne1,
          getk_setk_ne hk1]
    · by_cases h2 : (getk "CorrelationId" hs).isSome
      · simp [apply_correlation_id, h1, h2, getk_setk_ne hk2]
      · simp [apply_correlation_id, h1, h2]

/-- C4 amended witness: a header under the exact key correlationId is
overwritten with the fresh identifier. -/
theorem correlation_id_overwrite_amended_witness :
    getk "correlationId"
        (apply_correlation_id [("correlationId", "old")] "fresh-id") =
      some "fresh-id" :=
  (correlation_id_overwrite_amended [("correlationId", "old")] "fresh-id").1
    (by decide)

/-- C1 counterexample: with both a status check (expect 200) and a content
check (expect substring ok) declared, a response with status 500 whose body
contains ok is recorded as a success — the content block's success() call is
the last mark and overwrites the status-mismatch failure mark — refuting that
the outcome is marked failed whenever a declared status-code check
mismatches.  The mark trace shows the failure mark that was issued and then
overwritten. -/
theorem check_overwrite_counterexample :
    run_checks { status := some 200, content := some "ok" } 500 "it is ok" =
      [.failure "Status code 500 != 200", .success] ∧
    execute_checks { status := some 200, content := some "ok" } 500 "it is ok"
      (.failure "transport error") = .success ∧
    (500 : Nat) ≠ 200 := by
  decide

/-- C1 amended: execute evaluates the declared checks in order (status block,
then content block), each declared block marking a failure with a descriptive
reason on mismatch and a success otherwise, and the transport records the most
recent mark; hence the recorded outcome is decided by the content check when
one is declared (a later content-check success overwrites an earlier
status-check failure mark), by the status check when only it is declared, and
by the transport's own signal when no checks are declared; a check failure
only marks the outcome and does not abort the script. -/
theorem checks_outcome_amended (checks : Checks) (sc : Nat) (text : String)
    (transport : Outcome) :
    (checks.status = none → checks.content = none →
      execute_checks checks sc text transport = transport) ∧
    (∀ c, checks.content = some c →
      (strContains text c = true →
        execute_checks checks sc text transport = .success) ∧
      (strContains text c = false →
        execute_checks checks sc text transport =
          .failure ("Content check failed: " ++ c ++ " not found"))) ∧
    (∀ exp, checks.content = none → checks.status = some exp →
      (sc = exp → execute_checks checks sc text transport = .success) ∧
      (sc ≠ exp → execute_checks checks sc text transport =
        .failure ("Status code " ++ toString sc ++ " != " ++ toString exp))) := by
  obtain ⟨st, ct⟩ := checks
  refine ⟨?_, ?_, ?_⟩
  · rintro rfl rfl
    rfl
  · rintro c rfl
    refine ⟨?_, ?_⟩ <;> intro hc <;> cases st <;>
      simp [execute_checks, run_checks, final_outcome, hc,
        List.getLast?_concat]
  · rintro exp rfl rfl
    refine ⟨?_, ?_⟩ <;> intro hsc <;>
      simp [execute_checks, run_checks, final_outcome, hsc]

/-- C1 amended witness: with only a content check declared and the substring
absent, the outcome is the content failure with its reason. -/
theorem checks_outcome_amended_witness :
    execute_checks { status := none, content := some "needle" } 200 "hay"
      Outcome.success = .failure "Content check failed: needle not found" :=
  ((checks_outcome_amended { status := none, content := some "needle" } 200
      "hay" .success).2.1 "needle" rfl).2 (by decide)

/-- C7: for each timer id the first ThroughputGate call records the dispatch
time and returns without sleeping, and every subsequent call whose elapsed
time since the recorded dispatch is below the target interval 60 / rpm sleeps
exactly the remainder and then records the new dispatch timestamp (the wake
instant, which equals the previous stamp plus the target interval). -/
theorem throughput_wait_behavior (tt : ConstantThroughputTimer)
    (rpm now : ℚ) (timer_id : String) (e : TimerEntry) (hrpm : 0 < rpm) :
    (getk timer_id tt.timers = none →
      (tt.wait rpm timer_id now).1 = 0 ∧
      getk timer_id (tt.wait rpm timer_id now).2.timers =
        some { last_request := now, count := 1 }) ∧
    (getk timer_id tt.timers = some e → 0 < e.last_request →
      now - e.last_request < 60 / rpm →
      (tt.wait rpm timer_id now).1 = 60 / rpm - (now - e.last_request) ∧
      getk timer_id (tt.wait rpm timer_id now).2.timers =
        some { last_request := now + (60 / rpm - (now - e.last_request)),
               count := e.count + 1 }) := by
  constructor
  · intro h
    simp [ConstantThroughputTimer.wait, h, getk_setk_self]
  · intro h hpos helapsed
    have hsleep : max 0 (60 / rpm - (now - e.last_request)) =
        60 / rpm - (now - e.last_request) :=
      max_eq_right (le_of_lt (by linarith))
    simp [ConstantThroughputTimer.wait, h, hpos, hsleep, getk_setk_self]

/-- C7 witness: the very first call on a fresh timer (rpm 60, clock 100)
sleeps 0 and stamps 100 with count 1. -/
theorem throughput_wait_behavior_witness :
    (ConstantThroughputTimer.wait ⟨[]⟩ 60 "T1" 100).1 = 0 ∧
    getk "T1" (ConstantThroughputTimer.wait ⟨[]⟩ 60 "T1" 100).2.timers =
      some { last_request := 100, count := 1 } :=
  (throughput_wait_behavior ⟨[]⟩ 60 100 "T1" ⟨0, 0⟩ (by norm_num)).1 rfl

/-- C3: drawing a combination-group member whose shared row index is below the
bound leaves the manager unchanged unless the member is the declared last one,
in which case only the group's row index advances, by exactly one; when the
row index has reached the bound with recycle enabled it wraps to row 0 before
the value is read, so the draw yields row 0 and the stored index becomes 0
(or 1 when the wrapped draw was of the declared last member). -/
theorem combination_group_row_advance (m : VariableManager)
    (name g : String) (cfg : VarConfig) (grp : GroupState) (rnd : Nat)
    (hcfg : getk name m.vars = some cfg)
    (hgrp : cfg.combination_group = some g)
    (hg : g ≠ "")
    (hreg : getk g m.combination_groups = some grp)
    (hvals : cfg.values ≠ []) :
    (grp.members.getLast? ≠ some name → grp.index < cfg.values.length →
      m.get_value name rnd = (.ok (cfg.values.getD grp.index ""), m)) ∧
    (grp.members.getLast? = some name → grp.index < cfg.values.length →
      (m.get_value name rnd).1 = .ok (cfg.values.getD grp.index "") ∧
      getk g (m.get_value name rnd).2.combination_groups =
        some { grp with index := grp.index + 1 }) ∧
    (cfg.values.length ≤ grp.index → cfg.recycle_on_eof = true →
      (m.get_value name rnd).1 = .ok (cfg.values.headD "") ∧
      getk g (m.get_value name rnd).2.combination_groups =
        some { grp with index :=
          if grp.members.getLast? = some name then 1 else 0 }) := by
  have hne : cfg.values.isEmpty = false := by
    cases hv : cfg.values with
    | nil => exact absurd hv hvals
    | cons a t => rfl
  refine ⟨?_, ?_, ?_⟩
  · intro hlast hlt
    simp [VariableManager.get_value, hcfg, hne, hgrp, hg, hreg,
      beq_iff_eq, hlast, Nat.not_le.mpr hlt]
  · intro hlast hlt
    simp [VariableManager.get_value, hcfg, hne, hgrp, hg, hreg,
      beq_iff_eq, hlast, Nat.not_le.mpr hlt, getk_setk_self]
  · intro hge hrec
    simp [VariableManager.get_value, hcfg, hne, hgrp, hg, hreg,
      beq_iff_eq, hge, hrec, getk_setk_self]

/-- C3 witness: with group gr = [A, B] at row index 0, drawing the non-last
member A yields its row-0 value and leaves the manager, hence the row index,
unchanged. -/
theorem combination_group_row_advance_witness :
    VariableManager.get_value
      (((emptyManager.register_variable "A"
          ⟨"sequential", ["a1", "a2"], true, some "gr"⟩).register_variable
          "B" ⟨"sequential", ["b1", "b2"], true, some "gr"⟩).register_combination_group
          "gr" ["A", "B"]) "A" 0 =
      (.ok "a1",
        ((emptyManager.register_variable "A"
          ⟨"sequential", ["a1", "a2"], true, some "gr"⟩).register_variable
          "B" ⟨"sequential", ["b1", "b2"], true, some "gr"⟩).register_combination_group
          "gr" ["A", "B"]) :=
  (combination_group_row_advance _ "A" "gr"
    ⟨"sequential", ["a1", "a2"], true, some "gr"⟩ ⟨["A", "B"], 0⟩ 0
    (by decide) rfl (by decide) (by decide) (by decide)).1
    (by decide) (by decide)

/-- C8: for the configured stage table with only Script_01 (2 users, 5 s
ramp-up, 1 min duration) active, tick yields 0 users at elapsed 0, 1 user at
elapsed 2.5, 2 users throughout [5, 60), and from elapsed 60 on the stage is
skipped entirely, contributing 0 users and nothing to the spawn rate; in
general a single active stage still ramping contributes
floor(elapsed / ramp * users) users; and an empty active set yields 0 users
with the non-zero spawn rate 1 rather than terminating. -/
theorem load_shape_targets :
    (∀ (stages : List Stage) (t : ℚ),
      tick stages [] t = (0, 1) ∧ (1 : ℚ) ≠ 0) ∧
    (∀ (s : Stage) (t : ℚ), 0 ≤ t → t < s.RampUp →
      (tick [s] [s.scenario] t).1 = ⌊t / s.RampUp * (s.users : ℚ)⌋) ∧
    tick stagesConfig ["Script_01"] 0 = (0, 1) ∧
    tick stagesConfig ["Script_01"] (5 / 2) = (1, 1) ∧
    (∀ t : ℚ, 5 ≤ t → t < 60 → tick stagesConfig ["Script_01"] t = (2, 1)) ∧
    (∀ t : ℚ, 60 ≤ t → tick stagesConfig ["Script_01"] t = (0, 1)) := by
  have hmax : max (1 : ℚ) (2 / 5) = 1 := max_eq_left (by norm_num)
  have hc11 : (["Script_01"] : List String).contains "Script_01" = true := rfl
  have hc12 : (["Script_01"] : List String).contains "Script_02" = false := rfl
  have hs12 : ¬ ("Script_02" : String) = "Script_01" := by decide
  refine ⟨?_, ?_, ?_, ?_, ?_, ?_⟩
  · intro stages t
    exact ⟨by simp [tick], by norm_num⟩
  · intro s t ht0 htr
    have hr : 0 < s.RampUp := lt_of_le_of_lt ht0 htr
    have harg : 0 ≤ t / s.RampUp * (s.users : ℚ) :=
      mul_nonneg (div_nonneg ht0 hr.le) (by positivity)
    have hcs : ([s.scenario] : List String).contains s.scenario = true := by
      simp
    simp [tick, htr, pyint, harg, hcs]
  · norm_num [tick, stagesConfig, hc11, hc12, pyint, hmax, hs12,
      List.foldl_cons, List.foldl_nil]
  · norm_num [tick, stagesConfig, hc11, hc12, pyint, hmax, hs12,
      List.foldl_cons, List.foldl_nil]
  · intro t h5 h60
    have hn5 : ¬ (t < 5) := not_lt.mpr h5
    norm_num [tick, stagesConfig, hc11, hc12, hn5, h60, hmax, hs12,
      List.foldl_cons, List.foldl_nil]
  · intro t h60
    have hn5 : ¬ (t < 5) := by linarith
    have hn60 : ¬ (t < 60) := not_lt.mpr h60
    norm_num [tick, stagesConfig, hc11, hc12, hn5, hn60, hs12,
      List.foldl_cons, List.foldl_nil]

/-- C8 witness: at elapsed 5.5 s with only Script_01 active the target is 2
users at spawn rate 1. -/
theorem load_shape_targets_witness :
    tick stagesConfig ["Script_01"] (11 / 2) = (2, 1) :=
  load_shape_targets.2.2.2.2.1 (11 / 2) (by norm_num) (by norm_num)

/-- C6: a sequential variable with values a, b, c and recycle enabled yields
a, b, c, a, b over five successive draws: the cursor advances by one per draw
and wraps to 0 once it reaches the length of the value sequence. -/
theorem sequential_recycle_draws :
    draws
      (emptyManager.register_variable "S"
        { type := "sequential", values := ["a", "b", "c"],
          recycle_on_eof := true, combination_group := none })
      "S" 5 =
      [.ok "a", .ok "b", .ok "c", .ok "a", .ok "b"] := by
  decide

/-- C5: a unique variable with values x, y and recycle disabled yields x then
y, and the third draw signals the distinct StopIteration exhaustion outcome
(raised exactly because the cursor reached the bound with recycling disabled),
not an ordinary value. -/
theorem unique_exhaustion_draws :
    draws
      (emptyManager.register_variable "U"
        { type := "unique", values := ["x", "y"],
          recycle_on_eof := false, combination_group := none })
      "U" 3 =
      [.ok "x", .ok "y",
       .stopIteration "All values for U have been used"] := by
  decide

end FinalUi
